import Mathlib

/-!
Verification of the moderation / auto-reply pipeline of the fastapi-post-ai
blogging API.  The Lean definitions below are a shallow embedding of the
Python sources:

* `app/services/content_moderation.py` — `ModerationResult`, `moderate_content`
* `app/services.py`                    — `AutoReplyService.generate_reply`,
                                         `AutoReplyService._clean_reply`
* `app/services/auto_reply.py`         — `generate_auto_reply`,
                                         `schedule_auto_reply` (the body that
                                         runs after the `asyncio.sleep`)
* `app/routers/comments.py`            — `create_comment`
* `app/routers/posts.py`               — `create_post`
* `app/models.py` + the alembic migration `add_is_auto_reply_to_comments`
                                       — the persisted `Post`/`Comment` rows

External HTTP calls (Google AI moderation / generation) are modelled as an
explicit outcome parameter: either the call succeeded and produced the parsed
response fields, or it failed (network error, timeout, non-2xx status raised
by `raise_for_status`, or a JSON parse error) — both implementations wrap the
whole call in a single `try/except Exception`, so all failure modes land in
one branch.  The database session is modelled as an explicit record of the
persisted rows, with fetch-by-id as `List.find?` over insertion order and
`INSERT` as appending a row.
-/

set_option maxHeartbeats 1000000
set_option linter.unusedVariables false

/-- Result record built by `app/services/content_moderation.py::ModerationResult`.
`confidence` is a numeric literal in the source (a Python float used only as a
constant, never computed with); it is embedded as a rational constant. -/
structure ModerationResult where
  is_appropriate : Bool
  confidence : ℚ
  issues : List String
  severity : String
deriving DecidableEq

/-- Outcome of the single external moderation HTTP call made by
`moderate_content`.  `ok` carries the response fields after the
`data.get(...)` defaulting performed by the parsing code
(`flagged` defaults to `False`, `confidence` to `1.0`, `issues` to `[]`,
`severity` to `"none"`); `failure` is any exception caught by the
surrounding `try/except` (network error, timeout, `raise_for_status`,
malformed JSON). -/
inductive ModCall where
  | ok (flagged : Bool) (confidence : ℚ) (issues : List String) (severity : String)
  | failure
deriving DecidableEq

/-- Embedding of `app/services/content_moderation.py::moderate_content`.
`text` is the moderated text (it only flows into the request payload),
`hasKey` is `settings.GOOGLE_AI_API_KEY` being set, and `call` is the
outcome of the external HTTP call.  The function is total: every exception
from the external call is caught and turned into the permissive fallback
verdict, so no error propagates to the caller. -/
def moderate_content (text : String) (hasKey : Bool) (call : ModCall) : ModerationResult :=
  if !hasKey then
    { is_appropriate := true, confidence := 1.0, issues := [], severity := "none" }
  else
    match call with
    | ModCall.ok flagged confidence issues severity =>
        { is_appropriate := !flagged, confidence := confidence,
          issues := issues, severity := severity }
    | ModCall.failure =>
        { is_appropriate := true, confidence := 0.5,
          issues := ["moderation_error"], severity := "unknown" }

/-- Outcome of the single external generation call (`model.generate_content`
via `_get_ai_response`, or the raw HTTP call in `generate_auto_reply`):
`ok` carries the extracted response text, `failure` is any caught exception. -/
inductive GenCall where
  | ok (text : String)
  | failure
deriving DecidableEq

/-- Python `str.strip()` on one side of a character list. -/
def pyDropWhile (p : Char → Bool) (l : List Char) : List Char :=
  l.dropWhile p

/-- Python two-sided strip of the characters selected by `p`. -/
def pyStripBy (p : Char → Bool) (l : List Char) : List Char :=
  ((pyDropWhile p l).reverse.dropWhile p).reverse

/-- The double-quote character. -/
def dquote : Char := Char.ofNat 34

/-- The single-quote character. -/
def squote : Char := Char.ofNat 39

/-- The stripping pipeline of `AutoReplyService._clean_reply`:
`reply.strip()` then `reply.strip(chr(34))` then `reply.strip(chr(39))`,
each removing the selected characters from both ends. -/
def cleanStrip (l : List Char) : List Char :=
  pyStripBy (fun c => c == squote) (pyStripBy (fun c => c == dquote)
    (pyStripBy (fun c => c.isWhitespace) l))

/-- Embedding of `app/services.py::AutoReplyService._clean_reply` on the
character list of the reply: strip whitespace and surrounding quotes, then
`if len(reply) > 500: reply = reply[:497] + "..."`. -/
def cleanReplyList (l : List Char) : List Char :=
  if (cleanStrip l).length > 500 then (cleanStrip l).take 497 ++ "...".data
  else cleanStrip l

/-- `AutoReplyService._clean_reply` as a `String` function. -/
def cleanReply (reply : String) : String :=
  String.mk (cleanReplyList reply.data)

/-- Embedding of `app/services.py::AutoReplyService.generate_reply`.
`enabled` is `settings.AUTO_REPLY_ENABLED and self.model is not None`
(the flag computed in `__init__`); `call` is the outcome of the external
generation call.  Returns the cleaned reply on success and the empty string
both when the feature is disabled/unconfigured and when the call raises. -/
def generate_reply (enabled : Bool) (call : GenCall) (postContent commentContent postTitle : String) : String :=
  if !enabled then ("")
  else
    match call with
    | GenCall.ok raw => cleanReply raw
    | GenCall.failure => ""

/-- Embedding of `app/services/auto_reply.py::generate_auto_reply`.
If `settings.GOOGLE_AI_API_KEY` is unset it returns the fixed fallback text;
on a successful call it returns the extracted candidate text stripped; on any
caught exception it returns the same fixed fallback text. -/
def generate_auto_reply (hasKey : Bool) (call : GenCall) : String :=
  if !hasKey then ("Thank you for your comment!")
  else
    match call with
    | GenCall.ok extracted => String.mk (pyStripBy (fun c => c.isWhitespace) extracted.data)
    | GenCall.failure => "Thank you for your comment!"

/-- A persisted `posts` row (`app/models.py::Post`). -/
structure Post where
  id : Nat
  title : String
  content : String
  createdAt : Nat
  authorId : Nat
  auto_reply_enabled : Bool
  auto_reply_delay : Nat
deriving DecidableEq

/-- A persisted `comments` row.  `app/models.py::Comment` declares
`id, content, created_at, is_blocked, author_id, post_id`; the alembic
migration `add_is_auto_reply_to_comments` additionally gives the table an
`is_auto_reply` column with server default false.  Because the ORM model has
no `is_auto_reply` attribute, every row inserted through it carries the
server default. -/
structure Comment where
  id : Nat
  content : String
  createdAt : Nat
  is_blocked : Bool
  authorId : Nat
  postId : Nat
  is_auto_reply : Bool
deriving DecidableEq

/-- The persisted state seen by one job execution: the `posts` and
`comments` tables in insertion order, plus the autoincrement counter that
assigns the next comment id. -/
structure DB where
  posts : List Post
  comments : List Comment
  nextPostId : Nat
  nextCommentId : Nat
deriving DecidableEq

/-- `db.get(Post, post_id)` / `crud.get_post_by_id`: fetch-by-id. -/
def getPost (db : DB) (postId : Nat) : Option Post :=
  db.posts.find? (fun p => p.id == postId)

/-- `db.get(Comment, comment_id)` / `crud.get_comment_by_id`: fetch-by-id. -/
def getComment (db : DB) (commentId : Nat) : Option Comment :=
  db.comments.find? (fun c => c.id == commentId)

/-- `Comment.content.like("[Auto-reply]%")`: the pattern has no wildcard
other than the trailing `%`, so it matches exactly the contents beginning
with the literal `[Auto-reply]`. -/
def likeAutoReplyTag (s : String) : Bool :=
  "[Auto-reply]".data.isPrefixOf s.data

/-- The duplicate-suppression query of `schedule_auto_reply`
(`app/services/auto_reply.py` lines 49-56): some persisted comment on the
same post, authored by the post author, whose content starts with
`[Auto-reply]`, created strictly after the triggering comment.  The
`is_auto_reply` column is not consulted. -/
def hasReplyAfter (db : DB) (postId authorId triggerCreatedAt : Nat) : Bool :=
  db.comments.any (fun c =>
    c.postId == postId && c.authorId == authorId &&
    likeAutoReplyTag c.content && decide (triggerCreatedAt < c.createdAt))

/-- Terminal outcome of one run of the asyncio job body.  The silent
`return` on a missing post/comment is the outcome the spec names
`target_gone`; the silent `return` on the duplicate query finding a row is
`already_replied`; a committed insert is `posted`. -/
inductive RunOutcome where
  | targetGone
  | alreadyReplied
  | posted (commentId : Nat)
deriving DecidableEq

/-- The row inserted by `schedule_auto_reply` when it reaches the persist
step: `Comment(content=f"[Auto-reply] {reply_text}", author_id=post.author_id,
post_id=post_id, is_blocked=False)`, with the autoincrement id, the
`created_at` default `datetime.utcnow` (`now`), and the `is_auto_reply`
column left at its server default because the ORM model has no such
attribute. -/
def newAutoReplyRow (hasKey : Bool) (call : GenCall) (now : Nat) (db : DB)
    (postId : Nat) (post : Post) : Comment :=
  { id := db.nextCommentId,
    content := "[Auto-reply] " ++ generate_auto_reply hasKey call,
    createdAt := now, is_blocked := false, authorId := post.authorId,
    postId := postId, is_auto_reply := false }

/-- The part of `schedule_auto_reply` that runs once both rows were fetched:
duplicate check, generation, insert. -/
def scheduleAutoReplyBody (hasKey : Bool) (call : GenCall) (now : Nat) (db : DB)
    (postId : Nat) (post : Post) (comment : Comment) : RunOutcome × DB :=
  if hasReplyAfter db postId post.authorId comment.createdAt then
    (RunOutcome.alreadyReplied, db)
  else
    (RunOutcome.posted db.nextCommentId,
      { db with comments := db.comments ++ [newAutoReplyRow hasKey call now db postId post],
                nextCommentId := db.nextCommentId + 1 })

/-- Embedding of `app/services/auto_reply.py::schedule_auto_reply`, the body
executed after `asyncio.sleep(delay)`: re-fetch both rows by id, bail out if
either is gone, run the duplicate-suppression query, otherwise generate a
reply and insert the new comment with content `"[Auto-reply] " + reply`,
authored by the post author, with `is_blocked=False`.  The function reads
neither `post.auto_reply_enabled` nor `comment.is_blocked`, and the ORM
model gives the inserted row the `is_auto_reply` server default (false). -/
def schedule_auto_reply (hasKey : Bool) (call : GenCall) (now : Nat) (db : DB)
    (postId commentId : Nat) : RunOutcome × DB :=
  match getPost db postId, getComment db commentId with
  | some post, some comment => scheduleAutoReplyBody hasKey call now db postId post comment
  | _, _ => (RunOutcome.targetGone, db)

/-- The moderation verdict dictionary consumed by the routers
(`moderation_result` in `create_comment` / `create_post`): the
`is_appropriate` key is accessed directly, `issues` and `severity` are read
with `dict.get` defaults, so they are optional. -/
structure VerdictDict where
  is_appropriate : Bool
  issues : Option (List String)
  severity : Option String
deriving DecidableEq

/-- HTTP-level result of a create endpoint: a created row, or an
`HTTPException`-style client error, or an unhandled server exception. -/
inductive ApiError where
  | notFound (detail : String)
  | badRequest (message : String) (issues : List String) (severity : String)
  | serverError (detail : String)
deriving DecidableEq

/-- Payload of `schemas.PostCreate`. -/
structure PostCreate where
  title : String
  content : String
  auto_reply_enabled : Bool
  auto_reply_delay : Nat
deriving DecidableEq

/-- Embedding of `app/routers/posts.py::create_post`.  `mod` is the awaited
`content_moderation.moderate_content`; the text classified is the f-string
`f"{post_create.title} {post_create.content}"`.  On an inappropriate verdict
the handler raises 400 with the message, the verdict issues (default `[]`)
and severity (default `"medium"`); otherwise `crud.create_post` persists the
row. -/
def create_post (db : DB) (now userId : Nat) (p : PostCreate)
    (mod : String → VerdictDict) : Except ApiError (DB × Post) :=
  let verdict := mod (p.title ++ " " ++ p.content)
  if !verdict.is_appropriate then
    Except.error (ApiError.badRequest ("Post contains inappropriate content")
      (verdict.issues.getD []) (verdict.severity.getD ("medium")))
  else
    let newPost : Post :=
      { id := db.nextPostId, title := p.title, content := p.content,
        createdAt := now, authorId := userId,
        auto_reply_enabled := p.auto_reply_enabled,
        auto_reply_delay := p.auto_reply_delay }
    Except.ok ({ db with posts := db.posts ++ [newPost],
                         nextPostId := db.nextPostId + 1 }, newPost)

/-- Embedding of `app/routers/comments.py::create_comment`.  `mod` is the
awaited `content_moderation.moderate_content` applied to the submitted
comment content.  After the 404 check and the moderation gate the handler
builds the plain dict `comment_data = comment_create.dict();
comment_data["is_blocked"] = False` and calls
`crud.create_comment(db, comment_data, current_user.id, post_id)` — but
`crud.create_comment` immediately evaluates `comment_create.dict()` on that
plain dict, which has no `.dict` attribute, so the call raises
`AttributeError` before any row is built; the unhandled exception aborts the
request (server error), nothing is persisted, and `schedule_auto_reply` is
never reached. -/
def create_comment (db : DB) (postId userId : Nat) (content : String)
    (mod : String → VerdictDict) : Except ApiError (DB × Comment) :=
  match getPost db postId with
  | none => Except.error (ApiError.notFound ("Post not found"))
  | some _ =>
    let verdict := mod content
    if !verdict.is_appropriate then
      Except.error (ApiError.badRequest ("Comment contains inappropriate content")
        (verdict.issues.getD []) (verdict.severity.getD ("medium")))
    else
      Except.error (ApiError.serverError
        ("AttributeError: dict object has no attribute dict"))

/-! ## Helper lemmas -/

theorem find?_append_left {α : Type} (p : α → Bool) {l1 : List α} (l2 : List α)
    {a : α} (h : l1.find? p = some a) : (l1 ++ l2).find? p = some a := by
  rw [List.find?_append, h]
  rfl

theorem data_isPrefixOf_append (s t : String) :
    s.data.isPrefixOf (s ++ t).data = true := by
  rw [String.data_append s t, List.isPrefixOf_iff_prefix]
  exact List.prefix_append _ _

theorem likeAutoReplyTag_tagged (r : String) :
    likeAutoReplyTag ("[Auto-reply] " ++ r) = true := by
  unfold likeAutoReplyTag
  rw [String.data_append]
  have h13 : "[Auto-reply] ".data = "[Auto-reply]".data ++ [' '] := by decide
  rw [h13, List.append_assoc, List.isPrefixOf_iff_prefix]
  exact List.prefix_append _ _

/-! ## Claims -/

/-- C6: for every text input, when the external moderation call fails
(network error, timeout, malformed response, or parse failure — all caught
by the single `try/except` in `moderate_content`), the function returns the
verdict `is_appropriate=true, confidence=0.5, issues=["moderation_error"],
severity="unknown"`; being a total function of the call outcome, it never
propagates the exception to the caller. -/
theorem moderate_content_fail_open (text : String) :
    moderate_content text true ModCall.failure =
      { is_appropriate := true, confidence := 0.5,
        issues := ["moderation_error"], severity := "unknown" } := rfl

/-- Witness for C6 at a concrete text. -/
theorem moderate_content_fail_open_witness :
    moderate_content ("some user text") true ModCall.failure =
      { is_appropriate := true, confidence := 0.5,
        issues := ["moderation_error"], severity := "unknown" } :=
  moderate_content_fail_open ("some user text")

/-- C7: for every text input and every possible outcome of the external
service, when `settings.GOOGLE_AI_API_KEY` is unset `moderate_content`
returns the permissive verdict `is_appropriate=true, confidence=1.0,
issues=[], severity="none"`; the result does not depend on the external
call at all, reflecting that no external call is attempted. -/
theorem moderate_content_unconfigured (text : String) (call : ModCall) :
    moderate_content text false call =
      { is_appropriate := true, confidence := 1.0,
        issues := [], severity := "none" } := rfl

/-- Witness for C7: two different external outcomes, same permissive verdict. -/
theorem moderate_content_unconfigured_witness :
    moderate_content ("any text") false ModCall.failure =
      { is_appropriate := true, confidence := 1.0,
        issues := [], severity := "none" } ∧
    moderate_content ("any text") false (ModCall.ok true 0.9 ["spam"] ("high")) =
      { is_appropriate := true, confidence := 1.0,
        issues := [], severity := "none" } :=
  ⟨moderate_content_unconfigured ("any text") ModCall.failure,
   moderate_content_unconfigured ("any text") (ModCall.ok true 0.9 ["spam"] ("high"))⟩

/-- C8 counterexample: the claim says the reply generator returns the empty
string when unconfigured and on external failure, and never produces a
non-empty reply in those cases.  The module-level generator
`app/services/auto_reply.py::generate_auto_reply` instead returns the fixed
fallback text `"Thank you for your comment!"` both when
`GOOGLE_AI_API_KEY` is unset and when the external call fails. -/
theorem generate_auto_reply_nonempty_fallback :
    generate_auto_reply false GenCall.failure = "Thank you for your comment!" ∧
    generate_auto_reply true GenCall.failure = "Thank you for your comment!" ∧
    generate_auto_reply false GenCall.failure ≠ "" :=
  ⟨rfl, rfl, by decide⟩

/-- C8 amended: `AutoReplyService.generate_reply` (the generator the Celery
job calls) returns the empty string when the feature is disabled or
unconfigured and when the external call fails, never propagating an error;
the module-level `generate_auto_reply` in `app/services/auto_reply.py`
instead returns the fixed non-empty fallback `"Thank you for your comment!"`
in its unconfigured and failure cases (also without propagating). -/
theorem generate_reply_fail_silent (postContent commentContent postTitle : String) :
    (∀ call : GenCall,
      generate_reply false call postContent commentContent postTitle = "") ∧
    generate_reply true GenCall.failure postContent commentContent postTitle = "" ∧
    (∀ hasKey : Bool,
      generate_auto_reply hasKey GenCall.failure = "Thank you for your comment!") ∧
    generate_auto_reply false (GenCall.ok ("anything")) = "Thank you for your comment!" := by
  refine ⟨fun call => rfl, rfl, fun hasKey => ?_, rfl⟩
  cases hasKey <;> rfl

/-- Witness for C8 (amended) at concrete inputs. -/
theorem generate_reply_fail_silent_witness :
    generate_reply false GenCall.failure ("post body") "a comment" "title" = "" ∧
    generate_reply true GenCall.failure ("post body") "a comment" "title" = "" :=
  ⟨(generate_reply_fail_silent ("post body") "a comment" "title").1 GenCall.failure,
   (generate_reply_fail_silent ("post body") "a comment" "title").2.1⟩

/-- C9: for every raw generated reply whose stripped form is longer than 500
characters, `_clean_reply` returns output of length exactly 500 ending with
the ellipsis marker `...`; when the stripped form is at most 500 characters
it is returned unchanged (only surrounding whitespace and quote characters
having been stripped). -/
theorem clean_reply_truncation (s : String) :
    (500 < (cleanStrip s.data).length →
      (cleanReply s).length = 500 ∧
      "...".data.isSuffixOf (cleanReply s).data = true) ∧
    ((cleanStrip s.data).length ≤ 500 →
      cleanReply s = String.mk (cleanStrip s.data)) := by
  constructor
  · intro h
    constructor
    · show (String.mk (cleanReplyList s.data)).length = 500
      unfold cleanReplyList
      rw [if_pos h]
      show ((cleanStrip s.data).take 497 ++ "...".data).length = 500
      rw [List.length_append, List.length_take,
        Nat.min_eq_left (by omega : 497 ≤ (cleanStrip s.data).length)]
      decide
    · show ("...".data).isSuffixOf (String.mk (cleanReplyList s.data)).data = true
      unfold cleanReplyList
      rw [if_pos h]
      show ("...".data).isSuffixOf ((cleanStrip s.data).take 497 ++ "...".data) = true
      rw [List.isSuffixOf_iff_suffix]
      exact List.suffix_append _ _
  · intro h
    show String.mk (cleanReplyList s.data) = String.mk (cleanStrip s.data)
    unfold cleanReplyList
    rw [if_neg (by omega : ¬ (cleanStrip s.data).length > 500)]

set_option maxRecDepth 10000 in
/-- Witness for C9: a 501-character reply is cut to exactly 500 characters
ending in `...`, and a short reply is only stripped. -/
theorem clean_reply_truncation_witness :
    500 < (cleanStrip (String.mk (List.replicate 501 'a')).data).length ∧
    ((cleanReply (String.mk (List.replicate 501 'a'))).length = 500 ∧
      "...".data.isSuffixOf
        (cleanReply (String.mk (List.replicate 501 'a'))).data = true) ∧
    cleanReply ("  short reply  ") = "short reply" :=
  ⟨by decide, (clean_reply_truncation (String.mk (List.replicate 501 'a'))).1 (by decide),
   by decide⟩

/-- C2: for every job execution where the re-fetch by id of the post or of
the triggering comment returns none, the asyncio job body returns
immediately (the outcome the spec names `target_gone`): no comment is
created and no error is raised towards any user. -/
theorem auto_reply_target_gone (hasKey : Bool) (call : GenCall) (now : Nat)
    (db : DB) (postId commentId : Nat)
    (h : getPost db postId = none ∨ getComment db commentId = none) :
    schedule_auto_reply hasKey call now db postId commentId =
      (RunOutcome.targetGone, db) := by
  unfold schedule_auto_reply
  cases hp : getPost db postId <;> cases hc : getComment db commentId
  all_goals try rfl
  rcases h with h | h
  · rw [hp] at h
    exact Option.noConfusion h
  · rw [hc] at h
    exact Option.noConfusion h

/-- Witness for C2: on a database with no rows the job run is a no-op. -/
theorem auto_reply_target_gone_witness :
    getPost (DB.mk [] [] 1 1) 1 = none ∧
    schedule_auto_reply false GenCall.failure 5 (DB.mk [] [] 1 1) 1 2 =
      (RunOutcome.targetGone, DB.mk [] [] 1 1) :=
  ⟨rfl, auto_reply_target_gone false GenCall.failure 5 (DB.mk [] [] 1 1) 1 2 (Or.inl rfl)⟩

/-- C3 failing input: a post with `auto_reply_enabled=False` whose triggering
comment has `is_blocked=True`.  The asyncio job body (the only executor whose
state fetches resolve — the Celery executor calls `crud.get_comment` /
`crud.get_post`, which do not exist in `app/crud.py`, so it errors before any
flag check) consults neither flag and persists an auto-reply anyway, instead
of terminating with `disabled` or `blocked` as the claim states. -/
theorem auto_reply_ignores_disabled_and_blocked :
    schedule_auto_reply false GenCall.failure 20
      (DB.mk [Post.mk 1 "Title" "Body" 0 7 false 60]
             [Comment.mk 2 "First!" 10 true 3 1 false] 2 5) 1 2 =
      (RunOutcome.posted 5,
       DB.mk [Post.mk 1 "Title" "Body" 0 7 false 60]
             [Comment.mk 2 "First!" 10 true 3 1 false,
              Comment.mk 5 "[Auto-reply] Thank you for your comment!" 20 false 7 1 false]
             2 6) := by
  decide

/-- C5 failing input: a job execution that reaches the persist step.  The
persisted row has content equal to the tagged generated reply, the post
author as author and `is_blocked=false` — but its `is_auto_reply` column is
false, not true: `models.Comment` has no `is_auto_reply` attribute, so the
asyncio writer cannot set it and the migration server default applies (the
Celery writer, which does pass `is_auto_reply=True`, would raise `TypeError`
in the model constructor, and its `crud.create_comment(db, auto_reply_data)`
call also drops the two required positional arguments). -/
theorem auto_reply_persisted_row_not_flagged :
    schedule_auto_reply true (GenCall.ok ("  Thanks for reading!  ")) 30
      (DB.mk [Post.mk 1 "Title" "Body" 0 7 true 60]
             [Comment.mk 2 "Nice post" 10 false 3 1 false] 2 9) 1 2 =
      (RunOutcome.posted 9,
       DB.mk [Post.mk 1 "Title" "Body" 0 7 true 60]
             [Comment.mk 2 "Nice post" 10 false 3 1 false,
              Comment.mk 9 "[Auto-reply] Thanks for reading!" 30 false 7 1 false]
             2 10) := by
  decide

/-- C4 evaluated at concrete requests.  The moderation gate itself behaves
as claimed: an inappropriate verdict yields the 400 error carrying the
verdict issues and severity before anything is persisted or scheduled, and
an appropriate verdict lets a post creation proceed (the classified text
being title and body concatenated).  But a comment creation whose verdict
is appropriate does not persist the comment: the router hands
`crud.create_comment` a plain dict whose `.dict()` call raises
`AttributeError`, so the request aborts with a server error, nothing is
persisted, and no auto-reply job is scheduled — contradicting the claim
that the write proceeds. -/
theorem create_comment_allowed_write_crashes :
    create_comment (DB.mk [Post.mk 1 "Title" "Body" 0 7 true 60] [] 2 3) 1 8
        "Great post!" (fun t => VerdictDict.mk true (some []) (some "low")) =
      Except.error (ApiError.serverError
        ("AttributeError: dict object has no attribute dict")) ∧
    create_comment (DB.mk [Post.mk 1 "Title" "Body" 0 7 true 60] [] 2 3) 1 8
        "awful words" (fun t => VerdictDict.mk false (some ["profanity"]) (some "high")) =
      Except.error (ApiError.badRequest ("Comment contains inappropriate content")
        ["profanity"] "high") ∧
    create_post (DB.mk [] [] 3 1) 40 8 (PostCreate.mk ("T") "B" true 60)
        (fun t => if t = "T B" then VerdictDict.mk true (some []) (some "low")
                  else VerdictDict.mk false (some ["wrong text classified"]) (some "high")) =
      Except.ok (DB.mk [Post.mk 3 "T" "B" 40 8 true 60] [] 4 1,
        Post.mk 3 "T" "B" 40 8 true 60) := by
  refine ⟨rfl, rfl, rfl⟩

/-- C10: (1) every comment the asyncio scheduler persists has content
beginning with the literal tag `"[Auto-reply] "`; (2) the
duplicate-suppression query recognises a prior auto-reply solely by that
content tag together with same post, post author as comment author and
creation time after the trigger — the quantified suppressing comment `c`
carries no constraint on its `is_auto_reply` column, so any newer comment by
the post author whose content starts with `[Auto-reply]` suppresses the
job. -/
theorem auto_reply_tag_and_suppression :
    (∀ (hasKey : Bool) (call : GenCall) (now : Nat) (db db' : DB)
       (postId commentId rid : Nat),
       schedule_auto_reply hasKey call now db postId commentId =
         (RunOutcome.posted rid, db') →
       ∃ newC : Comment,
         db'.comments = db.comments ++ [newC] ∧
         "[Auto-reply] ".data.isPrefixOf newC.content.data = true) ∧
    (∀ (hasKey : Bool) (call : GenCall) (now : Nat) (db : DB)
       (postId commentId : Nat) (post : Post) (trigger c : Comment),
       getPost db postId = some post →
       getComment db commentId = some trigger →
       c ∈ db.comments → c.postId = postId → c.authorId = post.authorId →
       likeAutoReplyTag c.content = true →
       trigger.createdAt < c.createdAt →
       schedule_auto_reply hasKey call now db postId commentId =
         (RunOutcome.alreadyReplied, db)) := by
  constructor
  · intro hasKey call now db db' postId commentId rid hrun
    unfold schedule_auto_reply at hrun
    cases hp : getPost db postId with
    | none =>
        rw [hp] at hrun
        cases hc : getComment db commentId <;> rw [hc] at hrun <;> simp at hrun
    | some post =>
        cases hc : getComment db commentId with
        | none => rw [hp, hc] at hrun; simp at hrun
        | some trigger =>
            rw [hp, hc] at hrun
            have hrun2 : scheduleAutoReplyBody hasKey call now db postId post trigger =
                (RunOutcome.posted rid, db') := hrun
            unfold scheduleAutoReplyBody at hrun2
            by_cases hdup : hasReplyAfter db postId post.authorId trigger.createdAt = true
            · rw [if_pos hdup] at hrun2
              simp at hrun2
            · rw [if_neg hdup] at hrun2
              rw [Prod.mk.injEq] at hrun2
              refine ⟨newAutoReplyRow hasKey call now db postId post, ?_, ?_⟩
              · rw [← hrun2.2]
              · exact data_isPrefixOf_append ("[Auto-reply] ") (generate_auto_reply hasKey call)
  · intro hasKey call now db postId commentId post trigger c hp hc hmem hpost hauthor htag htime
    have hdup : hasReplyAfter db postId post.authorId trigger.createdAt = true := by
      unfold hasReplyAfter
      rw [List.any_eq_true]
      refine ⟨c, hmem, ?_⟩
      simp [hpost, hauthor, htag, htime]
    unfold schedule_auto_reply
    rw [hp, hc]
    show scheduleAutoReplyBody hasKey call now db postId post trigger =
      (RunOutcome.alreadyReplied, db)
    unfold scheduleAutoReplyBody
    rw [if_pos hdup]

/-- Witness for C10: a manually written comment by the post author whose
content starts with `[Auto-reply]` — its `is_auto_reply` column is false —
suppresses the scheduled job. -/
theorem auto_reply_tag_and_suppression_witness :
    (Comment.mk 4 "[Auto-reply] manual note" 15 false 7 1 false).is_auto_reply = false ∧
    schedule_auto_reply true (GenCall.ok ("generated text")) 50
      (DB.mk [Post.mk 1 "Title" "Body" 0 7 true 60]
             [Comment.mk 2 "Hello" 10 false 3 1 false,
              Comment.mk 4 "[Auto-reply] manual note" 15 false 7 1 false] 2 6) 1 2 =
      (RunOutcome.alreadyReplied,
       DB.mk [Post.mk 1 "Title" "Body" 0 7 true 60]
             [Comment.mk 2 "Hello" 10 false 3 1 false,
              Comment.mk 4 "[Auto-reply] manual note" 15 false 7 1 false] 2 6) :=
  ⟨rfl,
   auto_reply_tag_and_suppression.2 true (GenCall.ok ("generated text")) 50
     (DB.mk [Post.mk 1 "Title" "Body" 0 7 true 60]
            [Comment.mk 2 "Hello" 10 false 3 1 false,
             Comment.mk 4 "[Auto-reply] manual note" 15 false 7 1 false] 2 6) 1 2
     (Post.mk 1 "Title" "Body" 0 7 true 60)
     (Comment.mk 2 "Hello" 10 false 3 1 false)
     (Comment.mk 4 "[Auto-reply] manual note" 15 false 7 1 false)
     rfl rfl (by decide) rfl rfl (by decide) (by decide)⟩

/-- C1: if a first execution of the asyncio job body for triggering comment
`commentId` posted a reply (outcome `posted`, producing state `db1`), then a
second execution for the same triggering comment — under any configuration,
any external-call outcome and any later wall-clock time — terminates with
`already_replied` and leaves the state unchanged: at most one auto-reply per
triggering comment, even under retry or duplicate scheduling.  The time
hypothesis `ht` states that the first run inserted its row strictly after
the triggering comment's creation instant, which holds of any job execution
because the job only runs after the scheduling that follows the trigger's
insertion. -/
theorem auto_reply_second_run_suppressed
    (k1 k2 : Bool) (g1 g2 : GenCall) (t1 t2 : Nat) (db db1 : DB)
    (postId commentId rid : Nat) (trigger : Comment)
    (hc : getComment db commentId = some trigger)
    (ht : trigger.createdAt < t1)
    (hrun : schedule_auto_reply k1 g1 t1 db postId commentId =
      (RunOutcome.posted rid, db1)) :
    schedule_auto_reply k2 g2 t2 db1 postId commentId =
      (RunOutcome.alreadyReplied, db1) := by
  unfold schedule_auto_reply at hrun
  cases hp : getPost db postId with
  | none =>
      rw [hp, hc] at hrun
      simp at hrun
  | some post =>
      rw [hp, hc] at hrun
      have hrun2 : scheduleAutoReplyBody k1 g1 t1 db postId post trigger =
          (RunOutcome.posted rid, db1) := hrun
      unfold scheduleAutoReplyBody at hrun2
      by_cases hdup : hasReplyAfter db postId post.authorId trigger.createdAt = true
      · rw [if_pos hdup] at hrun2
        simp at hrun2
      · rw [if_neg hdup] at hrun2
        rw [Prod.mk.injEq] at hrun2
        obtain ⟨hrid, hdb⟩ := hrun2
        subst hdb
        unfold schedule_auto_reply
        have hp2 : getPost
            { db with comments := db.comments ++ [newAutoReplyRow k1 g1 t1 db postId post],
                      nextCommentId := db.nextCommentId + 1 } postId = some post := hp
        have hc2 : getComment
            { db with comments := db.comments ++ [newAutoReplyRow k1 g1 t1 db postId post],
                      nextCommentId := db.nextCommentId + 1 } commentId = some trigger :=
          find?_append_left _ _ hc
        rw [hp2, hc2]
        have hdup2 : hasReplyAfter
            { db with comments := db.comments ++ [newAutoReplyRow k1 g1 t1 db postId post],
                      nextCommentId := db.nextCommentId + 1 }
            postId post.authorId trigger.createdAt = true := by
          unfold hasReplyAfter
          rw [List.any_eq_true]
          refine ⟨newAutoReplyRow k1 g1 t1 db postId post, ?_, ?_⟩
          · exact List.mem_append_right _ (List.mem_singleton_self _)
          · show ((newAutoReplyRow k1 g1 t1 db postId post).postId == postId &&
              ((newAutoReplyRow k1 g1 t1 db postId post).authorId == post.authorId) &&
              likeAutoReplyTag (newAutoReplyRow k1 g1 t1 db postId post).content &&
              decide (trigger.createdAt <
                (newAutoReplyRow k1 g1 t1 db postId post).createdAt)) = true
            simp [newAutoReplyRow, likeAutoReplyTag_tagged, ht]
        show scheduleAutoReplyBody k2 g2 t2
            { db with comments := db.comments ++ [newAutoReplyRow k1 g1 t1 db postId post],
                      nextCommentId := db.nextCommentId + 1 } postId post trigger =
          (RunOutcome.alreadyReplied, _)
        unfold scheduleAutoReplyBody
        rw [if_pos hdup2]

/-- Witness for C1: a concrete first run posts the reply, and the second run
on the resulting state returns `already_replied` without changing it. -/
theorem auto_reply_second_run_suppressed_witness :
    schedule_auto_reply false GenCall.failure 20
      (DB.mk [Post.mk 1 "Title" "Body" 0 7 true 60]
             [Comment.mk 2 "Nice!" 10 false 3 1 false] 2 5) 1 2 =
      (RunOutcome.posted 5,
       DB.mk [Post.mk 1 "Title" "Body" 0 7 true 60]
             [Comment.mk 2 "Nice!" 10 false 3 1 false,
              Comment.mk 5 "[Auto-reply] Thank you for your comment!" 20 false 7 1 false]
             2 6) ∧
    schedule_auto_reply true (GenCall.ok ("retry text")) 40
      (DB.mk [Post.mk 1 "Title" "Body" 0 7 true 60]
             [Comment.mk 2 "Nice!" 10 false 3 1 false,
              Comment.mk 5 "[Auto-reply] Thank you for your comment!" 20 false 7 1 false]
             2 6) 1 2 =
      (RunOutcome.alreadyReplied,
       DB.mk [Post.mk 1 "Title" "Body" 0 7 true 60]
             [Comment.mk 2 "Nice!" 10 false 3 1 false,
              Comment.mk 5 "[Auto-reply] Thank you for your comment!" 20 false 7 1 false]
             2 6) :=
  ⟨by decide,
   auto_reply_second_run_suppressed false true GenCall.failure (GenCall.ok ("retry text"))
     20 40
     (DB.mk [Post.mk 1 "Title" "Body" 0 7 true 60]
            [Comment.mk 2 "Nice!" 10 false 3 1 false] 2 5)
     (DB.mk [Post.mk 1 "Title" "Body" 0 7 true 60]
            [Comment.mk 2 "Nice!" 10 false 3 1 false,
             Comment.mk 5 "[Auto-reply] Thank you for your comment!" 20 false 7 1 false]
            2 6)
     1 2 5 (Comment.mk 2 "Nice!" 10 false 3 1 false)
     rfl (by decide) (by decide)⟩
